import Mathlib

/-!
Verification of the `bulkie.js` orchestration layer (`src/bulkie.ts`,
`src/types.ts`, `src/esbuild.config.ts`).

The `Bulkie` class keeps a small amount of mutable state: the configured
network, the lazily-created vendor SDK clients (`litNodeClient`,
`litContracts`), an optional signer, a list of per-operation execution times,
and a `Map` of step outputs.  Every public operation routes its work through
`_run(opName, fnName, action, nextSteps)`, which first runs
`_checkRequirements(fnName)`, then awaits the action, records the wall-clock
duration on success, and rethrows any error as
`Error in <opName>: <original message>`.

We embed this state shallowly: vendor SDK objects are reduced to booleans
recording whether the field has been assigned, vendor SDK results are passed
in as oracle parameters, and every vendor SDK invocation is recorded in a
`calls` trace so that "no SDK call happened" is expressible.  The output map
keyed by strings (`fnName` or `fnName:outputId`, following the JavaScript
truthiness of `outputId`) is modelled as a function `String → Option α`.
-/

/-- The supported function names, from the `FN` constant in `src/types.ts`. -/
inductive FnName where
  | connectToLitNodeClient
  | connectToLitContracts
  | mintPKP
  | mintCreditsNFT
  | createCreditsDelegationToken
  | createAccessToken
  | grantAuthMethodToUsePKP
  | grantIPFSCIDtoUsePKP
  | getPkps
  | executeJs
deriving DecidableEq, Fintype

/-- The string value of each `FN` key (in `src/types.ts` the keys and values
of `FN` coincide). -/
def fnString : FnName → String
  | .connectToLitNodeClient => "connectToLitNodeClient"
  | .connectToLitContracts => "connectToLitContracts"
  | .mintPKP => "mintPKP"
  | .mintCreditsNFT => "mintCreditsNFT"
  | .createCreditsDelegationToken => "createCreditsDelegationToken"
  | .createAccessToken => "createAccessToken"
  | .grantAuthMethodToUsePKP => "grantAuthMethodToUsePKP"
  | .grantIPFSCIDtoUsePKP => "grantIPFSCIDtoUsePKP"
  | .getPkps => "getPkps"
  | .executeJs => "executeJs"

/-- A vendor-SDK invocation, recorded in the call trace.  The two
permission-granting contract calls carry the numeric scopes they were given
so that theorems can speak about the payload actually passed to the
contract. -/
inductive SdkCall where
  | simple : String → SdkCall
  | addPermittedAuthMethod : List Nat → SdkCall
  | addPermittedAction : List Nat → SdkCall
deriving DecidableEq

/-- The mutable state of a `Bulkie` instance.  `α` is the type of values
stored in the output cache (`any` in the TypeScript source).  The vendor SDK
fields `litNodeClient` / `litContracts` / `signer` / `network` are reduced to
their JavaScript truthiness, which is all `_checkRequirements` inspects. -/
structure BulkieState (α : Type) where
  network : Bool
  litNodeClient : Bool
  litContracts : Bool
  signer : Bool
  executionTimes : List Nat
  outputs : String → Option α
  calls : List SdkCall

/-- The cache key used by `_setOutput` / `getOutput`:
`const key = outputId ? fnName + ":" + outputId : fnName;`.
Note that a present-but-empty `outputId` is falsy in JavaScript and therefore
behaves like an absent one. -/
def fnKey (fn : FnName) (outputId : Option String) : String :=
  match outputId with
  | some id => if id = "" then fnString fn else fnString fn ++ ":" ++ id
  | none => fnString fn

/-- `Bulkie._setOutput` (src/bulkie.ts lines 159-162): store `output` under
the computed key. -/
def _setOutput {α : Type} (fn : FnName) (output : α) (outputId : Option String)
    (s : BulkieState α) : BulkieState α :=
  { s with outputs := fun k => if k = fnKey fn outputId then some output else s.outputs k }

/-- `Bulkie.getOutput` (src/bulkie.ts lines 84-87): read the value stored
under the computed key. -/
def getOutput {α : Type} (s : BulkieState α) (fn : FnName) (outputId : Option String) :
    Option α :=
  s.outputs (fnKey fn outputId)

/-- `require.network` inside `_checkRequirements`. -/
def requireNetwork {α : Type} (s : BulkieState α) : Except String Unit :=
  if s.network then .ok () else .error "❌ this.network is required"

/-- `require.litNodeClient` inside `_checkRequirements`. -/
def requireLitNodeClient {α : Type} (s : BulkieState α) : Except String Unit :=
  if s.litNodeClient then .ok () else .error "❌ LitNodeClient is required"

/-- `require.litContracts` inside `_checkRequirements`. -/
def requireLitContracts {α : Type} (s : BulkieState α) : Except String Unit :=
  if s.litContracts then .ok () else .error "❌ LitContracts is required"

/-- `require.signer` inside `_checkRequirements`. -/
def requireSigner {α : Type} (s : BulkieState α) : Except String Unit :=
  if s.signer then .ok () else .error "❌ Signer is required"

/-- `Bulkie._checkRequirements` (src/bulkie.ts lines 200-251).  The
`grantAuthMethodToUsePKP` case of the `switch` statement has no `break`, so
it falls through into the `createAccessToken` case and additionally requires
`litNodeClient`; we encode the fallthrough by sequencing the checks of both
cases. -/
def _checkRequirements {α : Type} (s : BulkieState α) (fn : FnName) : Except String Unit :=
  match fn with
  | .connectToLitNodeClient => requireNetwork s
  | .connectToLitContracts => requireNetwork s
  | .mintPKP =>
    match requireLitContracts s with
    | .error e => .error e
    | .ok _ => requireSigner s
  | .mintCreditsNFT =>
    match requireLitContracts s with
    | .error e => .error e
    | .ok _ => requireSigner s
  | .getPkps =>
    match requireLitContracts s with
    | .error e => .error e
    | .ok _ => requireSigner s
  | .grantAuthMethodToUsePKP =>
    match requireLitContracts s with
    | .error e => .error e
    | .ok _ =>
      match requireSigner s with
      | .error e => .error e
      | .ok _ => requireLitNodeClient s
  | .createAccessToken => requireLitNodeClient s
  | _ => .ok ()

/-- `Bulkie._run` (src/bulkie.ts lines 165-195).  The requirement check and
the awaited action run inside a `try`; on success the duration is pushed onto
`executionTimes`; any error is rethrown as
`Error in <opName>: <original message>`.  The wall-clock `duration` is an
oracle parameter.  Actions may mutate the instance state, so they are state
transformers returning the new state together with a result or error. -/
def _run {α β : Type} (opName : String) (fn : FnName)
    (action : BulkieState α → BulkieState α × Except String β)
    (duration : Nat) (s : BulkieState α) : BulkieState α × Except String β :=
  match _checkRequirements s fn with
  | .error e => (s, .error ("Error in " ++ opName ++ ": " ++ e))
  | .ok _ =>
    match action s with
    | (s', .error e) => (s', .error ("Error in " ++ opName ++ ": " ++ e))
    | (s', .ok r) => ({ s' with executionTimes := s'.executionTimes ++ [duration] }, .ok r)

/-- The return value of `getTotalExecutionTime`. -/
structure TotalTime where
  ms : Nat
  s : Rat
deriving DecidableEq

/-- `Bulkie.getTotalExecutionTime` (src/bulkie.ts lines 135-143):
`ms` is `executionTimes.reduce((a, b) => a + b, 0)` and `s` is `ms / 1000`
(JavaScript number division, hence rational). -/
def getTotalExecutionTime {α : Type} (st : BulkieState α) : TotalTime :=
  let totalMs := st.executionTimes.foldl (· + ·) 0
  { ms := totalMs, s := (totalMs : Rat) / 1000 }

/-- JavaScript truthiness of an optional string: `undefined` and `""` are
falsy. -/
def truthyOpt (o : Option String) : Bool :=
  match o with
  | none => false
  | some st => !st.isEmpty

/-- The action of `connectToLitNodeClient` (src/bulkie.ts lines 256-278):
`this.litNodeClient` is assigned before `connect()` is awaited, so the field
is set even when the connection fails.  `client` is the value stored in the
output cache and `connectRes` the oracle for the awaited `connect()` call. -/
def connectToLitNodeClientAction {α : Type} (client : α) (connectRes : Except String Unit)
    (outputId : Option String) (s : BulkieState α) : BulkieState α × Except String Unit :=
  let s1 := { s with litNodeClient := true,
                     calls := s.calls ++ [SdkCall.simple "litNodeClient.connect"] }
  match connectRes with
  | .error e => (s1, .error e)
  | .ok _ => (_setOutput .connectToLitNodeClient client outputId s1, .ok ())

/-- `Bulkie.connectToLitNodeClient`. -/
def connectToLitNodeClientOp {α : Type} (client : α) (connectRes : Except String Unit)
    (outputId : Option String) (duration : Nat) (s : BulkieState α) :
    BulkieState α × Except String Unit :=
  _run "LitNodeClient connection" .connectToLitNodeClient
    (connectToLitNodeClientAction client connectRes outputId) duration s

/-- The action of `connectToLitContracts` (src/bulkie.ts lines 280-327).
When a signer is present the debug block awaits `getAddress` and
`getBalance` (their failures are swallowed by the inner `try`);
`this.litContracts` is then assigned before `connect()` is awaited. -/
def connectToLitContractsAction {α : Type} (contracts : α) (connectRes : Except String Unit)
    (outputId : Option String) (s : BulkieState α) : BulkieState α × Except String Unit :=
  let s0 := if s.signer then
      { s with calls := s.calls ++ [SdkCall.simple "signer.getAddress",
                                    SdkCall.simple "signer.getBalance"] }
    else s
  let s1 := { s0 with litContracts := true,
                      calls := s0.calls ++ [SdkCall.simple "litContracts.connect"] }
  match connectRes with
  | .error e => (s1, .error e)
  | .ok _ => (_setOutput .connectToLitContracts contracts outputId s1, .ok ())

/-- `Bulkie.connectToLitContracts`. -/
def connectToLitContractsOp {α : Type} (contracts : α) (connectRes : Except String Unit)
    (outputId : Option String) (duration : Nat) (s : BulkieState α) :
    BulkieState α × Except String Unit :=
  _run "LitContracts connection" .connectToLitContracts
    (connectToLitContractsAction contracts connectRes outputId) duration s

/-- The action of `mintPKP` (src/bulkie.ts lines 329-420): mint via
`pkpNftContractUtils.write.mint()`, optionally self-fund (a failure there is
rethrown as `Error funding PKP: <e>` inside the action), then store the
result object.  `mintRes` is the oracle for the mint call, delivering the
cache value built from the mint response. -/
def mintPKPAction {α : Type} (selfFund : Bool) (outputId : Option String)
    (mintRes : Except String α) (fundRes : Except String Unit)
    (s : BulkieState α) : BulkieState α × Except String Unit :=
  let s1 := { s with calls := s.calls ++ [SdkCall.simple "pkpNftContractUtils.write.mint"] }
  match mintRes with
  | .error e => (s1, .error e)
  | .ok out =>
    if selfFund then
      let s2 := { s1 with calls := s1.calls ++ [SdkCall.simple "signer.sendTransaction"] }
      match fundRes with
      | .error e => (s2, .error ("Error funding PKP: " ++ e))
      | .ok _ => (_setOutput .mintPKP out outputId s2, .ok ())
    else (_setOutput .mintPKP out outputId s1, .ok ())

/-- `Bulkie.mintPKP`. -/
def mintPKPOp {α : Type} (selfFund : Bool) (outputId : Option String)
    (mintRes : Except String α) (fundRes : Except String Unit)
    (duration : Nat) (s : BulkieState α) : BulkieState α × Except String Unit :=
  _run "Mint PKP" .mintPKP (mintPKPAction selfFund outputId mintRes fundRes) duration s

/-- The action of `mintCreditsNFT` (src/bulkie.ts lines 440-457): await
`litContracts.mintCapacityCreditsNFT` and store `capacityTokenIdStr`. -/
def mintCreditsNFTAction {α : Type} (tokenRes : Except String α) (outputId : Option String)
    (s : BulkieState α) : BulkieState α × Except String Unit :=
  let s1 := { s with calls := s.calls ++ [SdkCall.simple "mintCapacityCreditsNFT"] }
  match tokenRes with
  | .error e => (s1, .error e)
  | .ok tok => (_setOutput .mintCreditsNFT tok outputId s1, .ok ())

/-- `Bulkie.mintCreditsNFT` (src/bulkie.ts lines 422-458).  The parameter
validation at lines 436-438 runs before `_run`, so its error escapes without
the `Error in ...` prefix; a `requestsPerKilosecond` or
`daysUntilUTCMidnightExpiration` of `0` is falsy. -/
def mintCreditsNFTOp {α : Type} (requestsPerKilosecond daysUntilUTCMidnightExpiration : Nat)
    (tokenRes : Except String α) (outputId : Option String) (duration : Nat)
    (s : BulkieState α) : BulkieState α × Except String Unit :=
  if requestsPerKilosecond = 0 ∨ daysUntilUTCMidnightExpiration = 0 then
    (s, .error "requestsPerKilosecond and daysUntilUTCMidnightExpiration are required")
  else
    _run "Mint Credits Token" .mintCreditsNFT (mintCreditsNFTAction tokenRes outputId)
      duration s

/-- The action of `getPkps` (src/bulkie.ts lines 98-131): await the signer
address, then `getTokensByAddress`, then one `getPubkey` per token (issued
concurrently through `Promise.all`; the trace records one call per token).
Note that this action returns its result without ever calling
`_setOutput`. -/
def getPkpsAction {α : Type} (signerAddress : Option String)
    (tokensRes : Except String (List String)) (s : BulkieState α) :
    BulkieState α × Except String Unit :=
  let s1 := { s with calls := s.calls ++ [SdkCall.simple "signer.getAddress"] }
  if truthyOpt signerAddress = false then
    (s1, .error "Signer address is required")
  else
    let s2 := { s1 with calls := s1.calls ++ [SdkCall.simple "getTokensByAddress"] }
    match tokensRes with
    | .error e => (s2, .error e)
    | .ok tokens =>
      ({ s2 with calls := s2.calls ++ tokens.map (fun _ => SdkCall.simple "getPubkey") },
       .ok ())

/-- `Bulkie.getPkps` (src/bulkie.ts lines 95-133).  Unlike every other
operation, `getPkps` invokes `_checkRequirements` directly (line 96) before
entering `_run`, so a requirement failure here escapes without the
`Error in Get PKPs: ` prefix. -/
def getPkpsOp {α : Type} (signerAddress : Option String)
    (tokensRes : Except String (List String)) (duration : Nat) (s : BulkieState α) :
    BulkieState α × Except String Unit :=
  match _checkRequirements s .getPkps with
  | .error e => (s, .error e)
  | .ok _ => _run "Get PKPs" .getPkps (getPkpsAction signerAddress tokensRes) duration s

/-- The `AuthMethodScopes` union type from `src/types.ts`. -/
inductive AuthMethodScope where
  | no_permission
  | sign_anything
  | eip_191_personal_sign
deriving DecidableEq

/-- The scope conversion performed identically in `grantAuthMethodToUsePKP`
(src/bulkie.ts lines 680-682) and `grantIPFSCIDtoUsePKP` (lines 731-733):
`scope === 'no_permission' ? 0 : scope === 'sign_anything' ? 1 : 2`. -/
def scopeNumbers (scopes : List AuthMethodScope) : List Nat :=
  scopes.map fun scope =>
    if scope = .no_permission then 0 else if scope = .sign_anything then 1 else 2

/-- The action of `grantAuthMethodToUsePKP` (src/bulkie.ts lines 684-719):
call `litContracts.addPermittedAuthMethod` with the converted scopes, then
store the transaction record. -/
def grantAuthMethodToUsePKPAction {α : Type} (scopes : List AuthMethodScope)
    (txRes : Except String α) (outputId : Option String) (s : BulkieState α) :
    BulkieState α × Except String Unit :=
  let s1 := { s with calls := s.calls ++ [SdkCall.addPermittedAuthMethod (scopeNumbers scopes)] }
  match txRes with
  | .error e => (s1, .error e)
  | .ok out => (_setOutput .grantAuthMethodToUsePKP out outputId s1, .ok ())

/-- `Bulkie.grantAuthMethodToUsePKP` (src/bulkie.ts lines 662-720). -/
def grantAuthMethodToUsePKPOp {α : Type} (scopes : List AuthMethodScope)
    (txRes : Except String α) (outputId : Option String) (duration : Nat)
    (s : BulkieState α) : BulkieState α × Except String Unit :=
  _run "Grant Auth Method" .grantAuthMethodToUsePKP
    (grantAuthMethodToUsePKPAction scopes txRes outputId) duration s

/-- The action of `grantIPFSCIDtoUsePKP` (src/bulkie.ts lines 735-768):
call `litContracts.addPermittedAction` with the converted scopes, then store
the transaction record. -/
def grantIPFSCIDtoUsePKPAction {α : Type} (scopes : List AuthMethodScope)
    (txRes : Except String α) (outputId : Option String) (s : BulkieState α) :
    BulkieState α × Except String Unit :=
  let s1 := { s with calls := s.calls ++ [SdkCall.addPermittedAction (scopeNumbers scopes)] }
  match txRes with
  | .error e => (s1, .error e)
  | .ok out => (_setOutput .grantIPFSCIDtoUsePKP out outputId s1, .ok ())

/-- `Bulkie.grantIPFSCIDtoUsePKP` (src/bulkie.ts lines 722-769).  Its
`_checkRequirements` case is the (empty) `default`. -/
def grantIPFSCIDtoUsePKPOp {α : Type} (scopes : List AuthMethodScope)
    (txRes : Except String α) (outputId : Option String) (duration : Nat)
    (s : BulkieState α) : BulkieState α × Except String Unit :=
  _run "Grant IPFS CID" .grantIPFSCIDtoUsePKP
    (grantIPFSCIDtoUsePKPAction scopes txRes outputId) duration s

/-- The `type` union of `createAccessToken`'s parameters. -/
inductive AccessTokenType where
  | custom_auth
  | native_auth
  | eoa
deriving DecidableEq

/-- The resource `type` union of `createAccessToken`'s parameters; the
`switch` at src/bulkie.ts lines 585-615 covers exactly these five cases. -/
inductive ResourceType where
  | pkp_signing
  | lit_action_execution
  | rate_limit_increase_auth
  | access_control_condition_decryption
  | access_control_condition_signing
deriving DecidableEq

/-- The action of `createAccessToken` (src/bulkie.ts lines 624-652): for
`custom_auth` it re-validates `creditsDelegationToken` and `code`/`ipfsCid`,
then awaits `litNodeClient.getLitActionSessionSigs` and stores the session
signatures; any other type throws `Type not supported yet`. -/
def createAccessTokenAction {α : Type} (ty : AccessTokenType) (code ipfsCid : Option String)
    (creditsDelegationToken : Bool) (sigsRes : Except String α) (outputId : Option String)
    (s : BulkieState α) : BulkieState α × Except String Unit :=
  if ty = .custom_auth then
    if creditsDelegationToken = false then
      (s, .error "creditsDelegationToken is required")
    else if truthyOpt code = false ∧ truthyOpt ipfsCid = false then
      (s, .error "Either code or ipfsCid must be provided")
    else
      let s1 := { s with calls := s.calls ++ [SdkCall.simple "getLitActionSessionSigs"] }
      match sigsRes with
      | .error e => (s1, .error e)
      | .ok sigs => (_setOutput .createAccessToken sigs outputId s1, .ok ())
  else (s, .error "Type not supported yet")

/-- `Bulkie.createAccessToken` (src/bulkie.ts lines 513-657).  All the
parameter validation at lines 556-581 runs before `_run`, so those errors
escape without the `Error in ...` prefix and without touching the state.
`code`, `ipfsCid` and `pkpPublicKey` are tested for JavaScript truthiness
(`undefined` and `""` are falsy); `jsParams` and `creditsDelegationToken`
are reduced to their truthiness.  The construction of the vendor resource
objects (lines 585-615) only builds opaque vendor values and is total over
`ResourceType`, so it is not modelled further. -/
def createAccessTokenOp {α : Type} (ty : AccessTokenType) (code ipfsCid : Option String)
    (jsParams : Bool) (pkpPublicKey : String) (resources : List ResourceType)
    (creditsDelegationToken : Bool) (sigsRes : Except String α) (outputId : Option String)
    (duration : Nat) (s : BulkieState α) : BulkieState α × Except String Unit :=
  if ty = .eoa ∨ ty = .native_auth then
    (s, .error "Native auth and EOA are not supported yet")
  else if ty = .custom_auth ∧ truthyOpt code = false ∧ truthyOpt ipfsCid = false then
    (s, .error "Either code or ipfsCid must be provided")
  else if ty = .custom_auth ∧ truthyOpt code = true ∧ truthyOpt ipfsCid = true then
    (s, .error "Only one of code or ipfsCid should be provided, not both")
  else if ty = .custom_auth ∧ jsParams = false then
    (s, .error "jsParams is required")
  else if pkpPublicKey = "" then
    (s, .error "pkpPublicKey is required")
  else if resources.length = 0 then
    (s, .error "resources is required")
  else
    _run "Create Access Token" .createAccessToken
      (createAccessTokenAction ty code ipfsCid creditsDelegationToken sigsRes outputId)
      duration s

/-!
## The build script's text post-processing

`wrapIIFEInStringPlugin` in `src/esbuild.config.ts` (lines 50-98) takes each
bundled output text, applies four global `String.replace` steps, and writes a
generated file wrapping the JSON-encoded result.  We model strings as the
character lists underneath `String` and give the replacement scanners literal
leftmost, non-overlapping semantics (the semantics of `String.prototype
.replace` with a global pattern).  The scanners recurse on an explicit fuel
bounded by the input length; every match consumes at least one character, so
the fuel never runs out on the inputs we use it with.
-/

/-- Match a literal character sequence at the head of the input, returning
the remainder on success. -/
def matchLit : List Char → List Char → Option (List Char)
  | [], l => some l
  | _ :: _, [] => none
  | c :: cs, d :: ds => if c = d then matchLit cs ds else none

/-- Match one-or-more characters satisfying `p` (maximal munch), returning
the remainder on success. -/
def takeWhile1 (p : Char → Bool) (l : List Char) : Option (List Char) :=
  match l with
  | [] => none
  | c :: rest => if p c then some (rest.dropWhile p) else none

/-- A JavaScript `\w` word character (`[A-Za-z0-9_]`). -/
def isWordChar (c : Char) : Bool :=
  ('a' ≤ c && c ≤ 'z') || ('A' ≤ c && c ≤ 'Z') || ('0' ≤ c && c ≤ '9') || c = '_'

/-- An ASCII `\s` whitespace character. -/
def isSpaceChar (c : Char) : Bool :=
  c = ' ' || c = '\t' || c = '\n' || c = '\x0d' || c = '\x0b' || c = '\x0c'

/-- Match the pattern from line 76 of `src/esbuild.config.ts`,
`var\s+\w+=\w+\("ethers"\);`, at the head of the input.  Because `\s` and
`\w` are disjoint from the respective follow characters, the regex's greedy
matching coincides with maximal munch. -/
def matchVarEthers (l : List Char) : Option (List Char) :=
  match matchLit "var".data l with
  | none => none
  | some l1 =>
    match takeWhile1 isSpaceChar l1 with
    | none => none
    | some l2 =>
      match takeWhile1 isWordChar l2 with
      | none => none
      | some l3 =>
        match matchLit "=".data l3 with
        | none => none
        | some l4 =>
          match takeWhile1 isWordChar l4 with
          | none => none
          | some l5 => matchLit "(\"ethers\");".data l5

/-- Delete every leftmost, non-overlapping occurrence of the literal `lit`
(the effect of `.replace(/lit/g, "")` for a literal pattern). -/
def deleteAllLitAux (lit : List Char) : Nat → List Char → List Char
  | 0, l => l
  | _, [] => []
  | fuel + 1, c :: rest =>
    match matchLit lit (c :: rest) with
    | some l => deleteAllLitAux lit fuel l
    | none => c :: deleteAllLitAux lit fuel rest

/-- String-level wrapper for `deleteAllLitAux`. -/
def deleteAllLitS (lit t : String) : String :=
  ⟨deleteAllLitAux lit.data t.data.length t.data⟩

/-- Delete every leftmost, non-overlapping match of
`var\s+\w+=\w+\("ethers"\);` (the effect of line 76 of
`src/esbuild.config.ts`). -/
def deleteVarEthersAux : Nat → List Char → List Char
  | 0, l => l
  | _, [] => []
  | fuel + 1, c :: rest =>
    match matchVarEthers (c :: rest) with
    | some l => deleteVarEthersAux fuel l
    | none => c :: deleteVarEthersAux fuel rest

/-- String-level wrapper for `deleteVarEthersAux`. -/
def deleteVarEthersS (t : String) : String :=
  ⟨deleteVarEthersAux t.data.length t.data⟩

/-- Replace every leftmost, non-overlapping match of `[a-zA-Z]\.ethers` with
`ethers` (the effect of line 77 of `src/esbuild.config.ts`; the matched
letter is part of the match and is therefore replaced away). -/
def replaceLetterEthersAux : Nat → List Char → List Char
  | 0, l => l
  | _, [] => []
  | fuel + 1, c :: rest =>
    if ('a' ≤ c && c ≤ 'z') || ('A' ≤ c && c ≤ 'Z') then
      match matchLit ".ethers".data rest with
      | some l => "ethers".data ++ replaceLetterEthersAux fuel l
      | none => c :: replaceLetterEthersAux fuel rest
    else c :: replaceLetterEthersAux fuel rest

/-- String-level wrapper for `replaceLetterEthersAux`. -/
def replaceLetterEthersS (t : String) : String :=
  ⟨replaceLetterEthersAux t.data.length t.data⟩

/-- The four text transformations of `wrapIIFEInStringPlugin`
(src/esbuild.config.ts lines 62-77), applied in source order. -/
def postprocess (t : String) : String :=
  replaceLetterEthersS
    (deleteVarEthersS
      (deleteAllLitS "import_ethers."
        (deleteAllLitS "var import_ethers = __require(\"ethers\");" t)))

/-- One hexadecimal digit, lower case, as emitted by `JSON.stringify`'s
`\u00XX` escapes. -/
def hexDigit (n : Nat) : Char :=
  if n < 10 then Char.ofNat ('0'.toNat + n) else Char.ofNat ('a'.toNat + (n - 10))

/-- The escape of one character inside a `JSON.stringify`'d string. -/
def jsonEscapeChar (c : Char) : List Char :=
  if c = '"' then ['\\', '"']
  else if c = '\\' then ['\\', '\\']
  else if c = '\x08' then ['\\', 'b']
  else if c = '\t' then ['\\', 't']
  else if c = '\n' then ['\\', 'n']
  else if c = '\x0c' then ['\\', 'f']
  else if c = '\x0d' then ['\\', 'r']
  else if c.toNat < 32 then
    ['\\', 'u', '0', '0', hexDigit (c.toNat / 16), hexDigit (c.toNat % 16)]
  else [c]

/-- `JSON.stringify` of a string value (the indentation arguments of
`JSON.stringify(content, null, 2)` do not affect the serialization of a
top-level string). -/
def jsonStringify (t : String) : String :=
  ⟨'"' :: (t.data.flatMap jsonEscapeChar) ++ ['"']⟩

/-- The fixed generated-file header comment of the template literal at
src/esbuild.config.ts lines 80-87, up to (but excluding)
`export const code = `. -/
def headerComment : String :=
  "/**\n * DO NOT EDIT THIS FILE. IT IS GENERATED ON BUILD. RUN `yarn generate-lit-actions` IN THE ROOT DIRECTORY TO UPDATE THIS FILE.\n * \n * @type { string } code - Lit Action code. You want to use the content in the \"code\" constant and NOT the content of this file.\n * \n */\n"

/-- The full text written to disk for a bundle text `t` by
`wrapIIFEInStringPlugin` (`wrappedContent` in src/esbuild.config.ts): the
header comment, `export const code = `, the JSON encoding of the
post-processed text, then `;` and a newline. -/
def wrappedContent (t : String) : String :=
  headerComment ++ "export const code = " ++ jsonStringify (postprocess t) ++ ";\n"

/-- The file shape asserted by the specification: the header comment
followed by `export const code = ` and the JSON string encoding of the
transformed text — and nothing after it.  (Definition follows the spec's
words, for comparison with `wrappedContent`.) -/
def claimedFileContent (t : String) : String :=
  headerComment ++ "export const code = " ++ jsonStringify (postprocess t)

/-!
## Static call structure of the operations

For the concurrency claim we record, per operation, the structure of its
awaited vendor-SDK calls as a small program: sequential composition for
consecutive `await`s and parallel composition for promises that are in
flight together (`Promise.all`).  `maxInFlight` bounds how many calls can be
outstanding at the same moment.
-/

/-- The await structure of an operation's vendor-SDK calls. -/
inductive AsyncProg where
  | skip : AsyncProg
  | call : String → AsyncProg
  | seq : AsyncProg → AsyncProg → AsyncProg
  | par : AsyncProg → AsyncProg → AsyncProg
deriving DecidableEq

/-- The largest number of vendor-SDK calls that can be in flight at the same
time while the program runs: sequential parts never overlap, parallel parts
add up. -/
def maxInFlight : AsyncProg → Nat
  | .skip => 0
  | .call _ => 1
  | .seq a b => max (maxInFlight a) (maxInFlight b)
  | .par a b => maxInFlight a + maxInFlight b

/-- `Promise.all` over a list of programs. -/
def parAll (ps : List AsyncProg) : AsyncProg :=
  ps.foldr .par .skip

/-- Await structure of `connectToLitNodeClient`: a single awaited
`connect()`. -/
def connectToLitNodeClientProg : AsyncProg :=
  .call "litNodeClient.connect"

/-- Await structure of `connectToLitContracts`: with a signer, the debug
block awaits `getAddress` then `getBalance`; then `connect()` is awaited. -/
def connectToLitContractsProg (signer : Bool) : AsyncProg :=
  .seq (if signer then .seq (.call "signer.getAddress") (.call "signer.getBalance") else .skip)
    (.call "litContracts.connect")

/-- Await structure of `mintPKP`: the mint, then (iff self-funding) the
funding transaction, its receipt, and the two balance reads, all
sequentially awaited. -/
def mintPKPProg (selfFund : Bool) : AsyncProg :=
  .seq (.call "pkpNftContractUtils.write.mint")
    (if selfFund then
      .seq (.call "signer.sendTransaction")
        (.seq (.call "tx.wait")
          (.seq (.call "provider.getBalance") (.call "signer.getBalance")))
    else .skip)

/-- Await structure of `mintCreditsNFT`. -/
def mintCreditsNFTProg : AsyncProg :=
  .call "mintCapacityCreditsNFT"

/-- Await structure of `createCreditsDelegationToken`. -/
def createCreditsDelegationTokenProg : AsyncProg :=
  .call "createCapacityDelegationAuthSig"

/-- Await structure of `createAccessToken`. -/
def createAccessTokenProg : AsyncProg :=
  .call "getLitActionSessionSigs"

/-- Await structure of `grantAuthMethodToUsePKP`. -/
def grantAuthMethodToUsePKPProg : AsyncProg :=
  .call "addPermittedAuthMethod"

/-- Await structure of `grantIPFSCIDtoUsePKP`. -/
def grantIPFSCIDtoUsePKPProg : AsyncProg :=
  .call "addPermittedAction"

/-- Await structure of `getPkps` (src/bulkie.ts lines 101-129): the signer
address and the token list are awaited sequentially, but the per-token
`getPubkey` promises are created together and awaited with `Promise.all`, so
they are all in flight at once. -/
def getPkpsProg (tokens : List String) : AsyncProg :=
  .seq (.call "signer.getAddress")
    (.seq (.call "getTokensByAddress")
      (parAll (tokens.map fun _ => .call "getPubkey")))

/-!
## Helper lemmas and concrete states
-/

/-- The `FN` names are pairwise distinct strings. -/
theorem fnString_inj : ∀ f g : FnName, fnString f = fnString g → f = g := by decide

/-- A string never equals itself extended by `:` and an output id. -/
theorem string_ne_append_colon (a id : String) : a ≠ a ++ ":" ++ id := by
  intro h
  have hl : a.length = (a ++ ":" ++ id).length := by rw [← h]
  rw [String.length_append, String.length_append] at hl
  have h1 : (":" : String).length = 1 := rfl
  omega

/-- The scope mapping as the specification states it: `no_permission ↦ 0`,
`sign_anything ↦ 1`, every other value ↦ 2.  (Definition follows the spec's
words, for comparison with `scopeNumbers`.) -/
def claimScopeNumber : AuthMethodScope → Nat
  | .no_permission => 0
  | .sign_anything => 1
  | .eip_191_personal_sign => 2

/-- A fresh instance immediately after construction with a network and a
signer: no clients connected, no timings, empty cache. -/
def stateA : BulkieState Nat :=
  { network := true, litNodeClient := false, litContracts := false, signer := true,
    executionTimes := [], outputs := fun _ => none, calls := [] }

/-- An instance with no network and no signer configured. -/
def stateNoNet : BulkieState Nat :=
  { network := false, litNodeClient := false, litContracts := false, signer := false,
    executionTimes := [], outputs := fun _ => none, calls := [] }

/-- An instance whose contracts client is connected but whose signer is
missing. -/
def stateNoSigner : BulkieState Nat :=
  { network := true, litNodeClient := false, litContracts := true, signer := false,
    executionTimes := [], outputs := fun _ => none, calls := [] }

/-- An instance with contracts client and signer but no node client. -/
def stateContractsOnly : BulkieState Nat :=
  { network := true, litNodeClient := false, litContracts := true, signer := true,
    executionTimes := [], outputs := fun _ => none, calls := [] }

/-- A fully connected instance. -/
def stateConnected : BulkieState Nat :=
  { network := true, litNodeClient := true, litContracts := true, signer := true,
    executionTimes := [], outputs := fun _ => none, calls := [] }

/-!
## The claims
-/

/-- C2: after a step stores output `v` for `fn` with no `outputId`,
`getOutput fn` returns `v`; a later store of `v2` for the same step
overwrites it (only the last output per step name is kept); and a store for
`fn` leaves the cached output of every other function name unchanged. -/
theorem C2_cache_keeps_last_output_per_step {α : Type} (s : BulkieState α)
    (fn fn' : FnName) (v v2 : α) (h : fn' ≠ fn) :
    getOutput (_setOutput fn v none s) fn none = some v ∧
    getOutput (_setOutput fn v2 none (_setOutput fn v none s)) fn none = some v2 ∧
    getOutput (_setOutput fn v none s) fn' none = getOutput s fn' none := by
  have hne : fnString fn' ≠ fnString fn := fun hh => h (fnString_inj fn' fn hh)
  refine ⟨?_, ?_, ?_⟩ <;> simp [getOutput, _setOutput, fnKey, hne]

/-- Witness for C2 at a concrete instance. -/
theorem C2_cache_keeps_last_output_per_step_witness :
    getOutput (_setOutput FnName.getPkps 1 none stateA) FnName.getPkps none = some 1 ∧
    getOutput (_setOutput FnName.getPkps 2 none (_setOutput FnName.getPkps 1 none stateA))
        FnName.getPkps none = some 2 ∧
    getOutput (_setOutput FnName.getPkps 1 none stateA) FnName.mintPKP none =
      getOutput stateA FnName.mintPKP none :=
  C2_cache_keeps_last_output_per_step stateA FnName.getPkps FnName.mintPKP 1 2 (by decide)

/-- C3 counterexample: a run that stores its result with
`params.outputId = "x"` does **not** store it under the bare step name —
`getOutput(fn)` with no `outputId` does not see it, contradicting the claim
that every run's result lands under the step name alone. -/
theorem C3_counterexample_outputId_changes_key :
    getOutput (_setOutput FnName.mintPKP (42 : Nat) (some "x") stateA) FnName.mintPKP none
      = none ∧
    getOutput (_setOutput FnName.mintPKP (42 : Nat) (some "x") stateA) FnName.mintPKP none
      ≠ some 42 := by
  constructor
  · decide
  · decide

/-- C3 (amended): the cache key is the step name when no (truthy) `outputId`
is given and `"<step name>:<outputId>"` otherwise, so a run that stores with
an `outputId` is retrieved by `getOutput(fn, outputId)`, leaves the bare
step-name entry untouched, and only runs storing without an `outputId` are
returned by `getOutput(fn)`. -/
theorem C3_amended_cache_key_includes_outputId {α : Type} (s : BulkieState α)
    (fn : FnName) (v : α) (id : String) (h : id ≠ "") :
    getOutput (_setOutput fn v (some id) s) fn (some id) = some v ∧
    getOutput (_setOutput fn v (some id) s) fn none = getOutput s fn none ∧
    getOutput (_setOutput fn v none s) fn none = some v := by
  have hne : fnString fn ≠ fnString fn ++ ":" ++ id := string_ne_append_colon _ _
  refine ⟨?_, ?_, ?_⟩ <;> simp [getOutput, _setOutput, fnKey, h, hne]

/-- Witness for the amended C3 at a concrete instance. -/
theorem C3_amended_cache_key_includes_outputId_witness :
    getOutput (_setOutput FnName.getPkps 7 (some "x") stateA) FnName.getPkps (some "x")
      = some 7 ∧
    getOutput (_setOutput FnName.getPkps 7 (some "x") stateA) FnName.getPkps none =
      getOutput stateA FnName.getPkps none ∧
    getOutput (_setOutput FnName.getPkps 7 none stateA) FnName.getPkps none = some 7 :=
  C3_amended_cache_key_includes_outputId stateA FnName.getPkps 7 "x" (by decide)

/-- C1 counterexample: `getPkps` invokes `_checkRequirements` *before*
entering `_run` (src/bulkie.ts line 96), so on an instance whose contracts
client is missing the requirement failure escapes as the bare message
`❌ LitContracts is required`, without the `Error in <operation name>: `
prefix the claim promises for every error. -/
theorem C1_counterexample_getPkps_unprefixed_error :
    (getPkpsOp (α := Nat) (some "0xa") (Except.ok []) 5 stateA).2 =
      Except.error "❌ LitContracts is required" ∧
    "❌ LitContracts is required".startsWith "Error in" = false := by
  constructor
  · rfl
  · rfl

/-- C1 (amended): every error raised *inside* `_run` — requirement-check
failures re-run there and vendor-SDK action failures — is rethrown as an
error whose message is the original message prefixed with
`Error in <operation name>: `; but validation performed before `_run`
(`getPkps`'s eager requirement check, `mintCreditsNFT`'s and
`createAccessToken`'s parameter checks) escapes unprefixed. -/
theorem C1_amended_run_rethrows_with_op_name {α β : Type} (opName : String)
    (fn : FnName) (action : BulkieState α → BulkieState α × Except String β)
    (duration : Nat) (s : BulkieState α) (e : String)
    (h : (_run opName fn action duration s).2 = .error e) :
    ∃ orig, e = "Error in " ++ opName ++ ": " ++ orig := by
  unfold _run at h
  cases hc : _checkRequirements s fn with
  | error e0 =>
    rw [hc] at h
    simp only at h
    injection h with h'
    exact ⟨e0, h'.symm⟩
  | ok u =>
    rw [hc] at h
    rcases ha : action s with ⟨s', r⟩
    rw [ha] at h
    cases r with
    | error e0 =>
      simp only at h
      injection h with h'
      exact ⟨e0, h'.symm⟩
    | ok r0 => simp at h

/-- Witness for the amended C1: a concrete action failure is rethrown with
the operation name prefixed. -/
theorem C1_amended_run_rethrows_with_op_name_witness :
    ∃ orig, "Error in Op: boom" = "Error in " ++ "Op" ++ ": " ++ orig :=
  C1_amended_run_rethrows_with_op_name (β := Nat) "Op" FnName.executeJs
    (fun t => (t, Except.error "boom")) 3 stateA "Error in Op: boom" rfl

/-- C4: `getTotalExecutionTime` returns `ms` equal to the sum of all
recorded durations and `s` equal to `ms / 1000`; a `_run` that completes
successfully appends exactly its wall-clock duration to the record, and a
`_run` that throws appends nothing (for any action that does not itself
touch `executionTimes`, which no action in the source does). -/
theorem C4_execution_time_accounting {α β : Type} (opName : String) (fn : FnName)
    (action : BulkieState α → BulkieState α × Except String β) (duration : Nat)
    (s : BulkieState α)
    (hact : ∀ t : BulkieState α, ((action t).1).executionTimes = t.executionTimes) :
    (getTotalExecutionTime s).ms = s.executionTimes.sum ∧
    (getTotalExecutionTime s).s = (s.executionTimes.sum : Rat) / 1000 ∧
    (∀ s' r, _run opName fn action duration s = (s', Except.ok r) →
      s'.executionTimes = s.executionTimes ++ [duration]) ∧
    (∀ s' e, _run opName fn action duration s = (s', Except.error e) →
      s'.executionTimes = s.executionTimes) := by
  refine ⟨?_, ?_, ?_, ?_⟩
  · simp [getTotalExecutionTime, List.sum_eq_foldl]
  · simp [getTotalExecutionTime, List.sum_eq_foldl]
  · intro s' r h
    unfold _run at h
    cases hc : _checkRequirements s fn <;> rw [hc] at h
    · simp at h
    · rcases ha : action s with ⟨s1, ex⟩
      rw [ha] at h
      have h1 : s1.executionTimes = s.executionTimes := by
        have := hact s; rw [ha] at this; exact this
      cases ex with
      | error e0 => simp at h
      | ok r0 =>
        simp only [Prod.mk.injEq] at h
        rw [← h.1, h1]
  · intro s' e h
    unfold _run at h
    cases hc : _checkRequirements s fn <;> rw [hc] at h
    · simp only [Prod.mk.injEq] at h
      rw [← h.1]
    · rcases ha : action s with ⟨s1, ex⟩
      rw [ha] at h
      have h1 : s1.executionTimes = s.executionTimes := by
        have := hact s; rw [ha] at this; exact this
      cases ex with
      | error e0 =>
        simp only [Prod.mk.injEq] at h
        rw [← h.1, h1]
      | ok r0 => simp at h

/-- A trivially succeeding action that leaves the state unchanged, used to
instantiate the timing theorem. -/
def actOk : BulkieState Nat → BulkieState Nat × Except String Nat :=
  fun t => (t, Except.ok 0)

/-- Witness for C4 at a concrete instance and action. -/
theorem C4_execution_time_accounting_witness :
    (getTotalExecutionTime stateA).ms = stateA.executionTimes.sum ∧
    ((_run "Op2" FnName.executeJs actOk 7 stateA).1).executionTimes =
      stateA.executionTimes ++ [7] := by
  have h := C4_execution_time_accounting "Op2" FnName.executeJs actOk 7 stateA
    (fun t => rfl)
  exact ⟨h.1, h.2.2.1 (_run "Op2" FnName.executeJs actOk 7 stateA).1 0 rfl⟩

/-- C5: requirement checks gate the operations.  Without a network,
`connectToLitNodeClient` and `connectToLitContracts` fail on
`❌ this.network is required`; without a contracts client, `mintPKP`,
`mintCreditsNFT` and `getPkps` fail on `❌ LitContracts is required`; with a
contracts client but no signer they fail on `❌ Signer is required`.  In
every case the returned state is exactly the input state, so no vendor-SDK
call was recorded and no output-cache entry was written.  The errors routed
through `_run` carry the `Error in <operation name>: ` prefix; `getPkps`'s
eager check escapes bare. -/
theorem C5_requirement_checks_gate_operations {α : Type}
    (client contracts : α) (mintRes tokenRes : Except String α)
    (fundRes connectRes : Except String Unit) (signerAddress : Option String)
    (tokensRes : Except String (List String)) (selfFund : Bool)
    (outputId : Option String) (duration : Nat)
    (requests days : Nat) (hr : requests ≠ 0) (hd : days ≠ 0)
    (s : BulkieState α) :
    (s.network = false →
      connectToLitNodeClientOp client connectRes outputId duration s =
        (s, Except.error ("Error in LitNodeClient connection: " ++ "❌ this.network is required")) ∧
      connectToLitContractsOp contracts connectRes outputId duration s =
        (s, Except.error ("Error in LitContracts connection: " ++ "❌ this.network is required"))) ∧
    (s.litContracts = false →
      mintPKPOp selfFund outputId mintRes fundRes duration s =
        (s, Except.error ("Error in Mint PKP: " ++ "❌ LitContracts is required")) ∧
      mintCreditsNFTOp requests days tokenRes outputId duration s =
        (s, Except.error ("Error in Mint Credits Token: " ++ "❌ LitContracts is required")) ∧
      getPkpsOp signerAddress tokensRes duration s =
        (s, Except.error "❌ LitContracts is required")) ∧
    (s.litContracts = true → s.signer = false →
      mintPKPOp selfFund outputId mintRes fundRes duration s =
        (s, Except.error ("Error in Mint PKP: " ++ "❌ Signer is required")) ∧
      mintCreditsNFTOp requests days tokenRes outputId duration s =
        (s, Except.error ("Error in Mint Credits Token: " ++ "❌ Signer is required")) ∧
      getPkpsOp signerAddress tokensRes duration s =
        (s, Except.error "❌ Signer is required")) := by
  refine ⟨?_, ?_, ?_⟩
  · intro hnet
    constructor
    · simp [connectToLitNodeClientOp, _run, _checkRequirements, requireNetwork, hnet]
    · simp [connectToLitContractsOp, _run, _checkRequirements, requireNetwork, hnet]
  · intro hlc
    refine ⟨?_, ?_, ?_⟩
    · simp [mintPKPOp, _run, _checkRequirements, requireLitContracts, hlc]
    · simp [mintCreditsNFTOp, hr, hd, _run, _checkRequirements, requireLitContracts, hlc]
    · simp [getPkpsOp, _run, _checkRequirements, requireLitContracts, hlc]
  · intro hlc hsg
    refine ⟨?_, ?_, ?_⟩
    · simp [mintPKPOp, _run, _checkRequirements, requireLitContracts, requireSigner, hlc, hsg]
    · simp [mintCreditsNFTOp, hr, hd, _run, _checkRequirements, requireLitContracts,
        requireSigner, hlc, hsg]
    · simp [getPkpsOp, _run, _checkRequirements, requireLitContracts, requireSigner, hlc, hsg]

/-- Witness for C5: a fresh unconnected instance without a network and an
instance with contracts but no signer. -/
theorem C5_requirement_checks_gate_operations_witness :
    connectToLitNodeClientOp (α := Nat) 0 (Except.ok ()) none 1 stateNoNet =
      (stateNoNet, Except.error ("Error in LitNodeClient connection: " ++ "❌ this.network is required")) ∧
    getPkpsOp (α := Nat) (some "0xa") (Except.ok []) 1 stateNoNet =
      (stateNoNet, Except.error "❌ LitContracts is required") ∧
    mintPKPOp (α := Nat) false none (Except.ok 0) (Except.ok ()) 1 stateNoSigner =
      (stateNoSigner, Except.error ("Error in Mint PKP: " ++ "❌ Signer is required")) := by
  have h1 := C5_requirement_checks_gate_operations (α := Nat) 0 0 (Except.ok 0)
    (Except.ok 0) (Except.ok ()) (Except.ok ()) (some "0xa") (Except.ok []) false none 1
    1 1 (by decide) (by decide) stateNoNet
  have h2 := C5_requirement_checks_gate_operations (α := Nat) 0 0 (Except.ok 0)
    (Except.ok 0) (Except.ok ()) (Except.ok ()) (some "0xa") (Except.ok []) false none 1
    1 1 (by decide) (by decide) stateNoSigner
  exact ⟨(h1.1 rfl).1, (h1.2.1 rfl).2.2, (h2.2.2 rfl rfl).1⟩

/-- C8: on an instance whose contracts client and signer are set but whose
node client is not, `grantAuthMethodToUsePKP` fails — its missing `break`
makes the requirement `switch` fall through into the `createAccessToken`
case, which demands `litNodeClient`.  The thrown message is the
`_run`-prefixed `Error in Grant Auth Method: ❌ LitNodeClient is required`,
which contains `❌ LitNodeClient is required` as claimed. -/
theorem C8_grantAuthMethod_requires_litNodeClient {α : Type}
    (scopes : List AuthMethodScope) (txRes : Except String α)
    (outputId : Option String) (duration : Nat) (s : BulkieState α)
    (h1 : s.litContracts = true) (h2 : s.signer = true) (h3 : s.litNodeClient = false) :
    grantAuthMethodToUsePKPOp scopes txRes outputId duration s =
      (s, Except.error ("Error in Grant Auth Method: " ++ "❌ LitNodeClient is required")) := by
  simp [grantAuthMethodToUsePKPOp, _run, _checkRequirements, requireLitContracts,
    requireSigner, requireLitNodeClient, h1, h2, h3]

/-- Witness for C8 at a concrete contracts-and-signer-only instance. -/
theorem C8_grantAuthMethod_requires_litNodeClient_witness :
    grantAuthMethodToUsePKPOp (α := Nat) [AuthMethodScope.sign_anything] (Except.ok 0) none
        4 stateContractsOnly =
      (stateContractsOnly,
        Except.error ("Error in Grant Auth Method: " ++ "❌ LitNodeClient is required")) :=
  C8_grantAuthMethod_requires_litNodeClient [AuthMethodScope.sign_anything] (Except.ok 0)
    none 4 stateContractsOnly rfl rfl rfl

/-- C9: in both `grantAuthMethodToUsePKP` and `grantIPFSCIDtoUsePKP` the
numeric scopes handed to the contract call are exactly the element-wise image
of the input scope list under `no_permission ↦ 0`, `sign_anything ↦ 1`,
anything else ↦ 2, preserving order and length.  (`grantIPFSCIDtoUsePKP` has
no requirement case, so its call happens on any state; for
`grantAuthMethodToUsePKP` the fully-connected requirements are assumed.) -/
theorem C9_scopes_mapped_elementwise {α : Type} (scopes : List AuthMethodScope)
    (txA txI : Except String α) (oidA oidI : Option String) (dA dI : Nat)
    (sA sI : BulkieState α)
    (h1 : sA.litContracts = true) (h2 : sA.signer = true) (h3 : sA.litNodeClient = true) :
    ((grantAuthMethodToUsePKPOp scopes txA oidA dA sA).1).calls =
      sA.calls ++ [SdkCall.addPermittedAuthMethod (scopes.map claimScopeNumber)] ∧
    ((grantIPFSCIDtoUsePKPOp scopes txI oidI dI sI).1).calls =
      sI.calls ++ [SdkCall.addPermittedAction (scopes.map claimScopeNumber)] ∧
    scopeNumbers scopes = scopes.map claimScopeNumber ∧
    (scopes.map claimScopeNumber).length = scopes.length := by
  have hmap : scopeNumbers scopes = scopes.map claimScopeNumber := by
    unfold scopeNumbers
    apply List.map_congr_left
    intro a _
    cases a <;> rfl
  refine ⟨?_, ?_, hmap, List.length_map _ _⟩
  · cases txA <;>
      simp [grantAuthMethodToUsePKPOp, grantAuthMethodToUsePKPAction, _run,
        _checkRequirements, requireLitContracts, requireSigner, requireLitNodeClient,
        h1, h2, h3, _setOutput, hmap]
  · cases txI <;>
      simp [grantIPFSCIDtoUsePKPOp, grantIPFSCIDtoUsePKPAction, _run,
        _checkRequirements, _setOutput, hmap]

/-- Witness for C9 on a fully connected instance with one scope of each
kind. -/
theorem C9_scopes_mapped_elementwise_witness :
    ((grantAuthMethodToUsePKPOp (α := Nat)
        [AuthMethodScope.no_permission, AuthMethodScope.sign_anything,
         AuthMethodScope.eip_191_personal_sign] (Except.ok 0) none 2 stateConnected).1).calls =
      stateConnected.calls ++
        [SdkCall.addPermittedAuthMethod
          ([AuthMethodScope.no_permission, AuthMethodScope.sign_anything,
            AuthMethodScope.eip_191_personal_sign].map claimScopeNumber)] ∧
    ((grantIPFSCIDtoUsePKPOp (α := Nat)
        [AuthMethodScope.no_permission, AuthMethodScope.sign_anything,
         AuthMethodScope.eip_191_personal_sign] (Except.ok 0) none 2 stateConnected).1).calls =
      stateConnected.calls ++
        [SdkCall.addPermittedAction
          ([AuthMethodScope.no_permission, AuthMethodScope.sign_anything,
            AuthMethodScope.eip_191_personal_sign].map claimScopeNumber)] ∧
    scopeNumbers [AuthMethodScope.no_permission, AuthMethodScope.sign_anything,
        AuthMethodScope.eip_191_personal_sign] =
      [AuthMethodScope.no_permission, AuthMethodScope.sign_anything,
        AuthMethodScope.eip_191_personal_sign].map claimScopeNumber ∧
    ([AuthMethodScope.no_permission, AuthMethodScope.sign_anything,
        AuthMethodScope.eip_191_personal_sign].map claimScopeNumber).length =
      [AuthMethodScope.no_permission, AuthMethodScope.sign_anything,
        AuthMethodScope.eip_191_personal_sign].length :=
  C9_scopes_mapped_elementwise
    [AuthMethodScope.no_permission, AuthMethodScope.sign_anything,
     AuthMethodScope.eip_191_personal_sign] (Except.ok 0) (Except.ok 0) none none 2 2
    stateConnected stateConnected rfl rfl rfl

/-- C10: `createAccessToken` with type `custom_auth` fails on
`Either code or ipfsCid must be provided` when neither `code` nor `ipfsCid`
is given (JavaScript-truthy), and on
`Only one of code or ipfsCid should be provided, not both` when both are;
these validations run before `_run`, so the returned state is exactly the
input state: no session signatures were requested and the output cache is
untouched. -/
theorem C10_createAccessToken_code_ipfsCid_validation {α : Type}
    (code ipfsCid : Option String) (jsParams : Bool) (pkpPublicKey : String)
    (resources : List ResourceType) (creditsDelegationToken : Bool)
    (sigsRes : Except String α) (outputId : Option String) (duration : Nat)
    (s : BulkieState α) :
    (truthyOpt code = false → truthyOpt ipfsCid = false →
      createAccessTokenOp .custom_auth code ipfsCid jsParams pkpPublicKey resources
          creditsDelegationToken sigsRes outputId duration s =
        (s, Except.error "Either code or ipfsCid must be provided")) ∧
    (truthyOpt code = true → truthyOpt ipfsCid = true →
      createAccessTokenOp .custom_auth code ipfsCid jsParams pkpPublicKey resources
          creditsDelegationToken sigsRes outputId duration s =
        (s, Except.error "Only one of code or ipfsCid should be provided, not both")) := by
  constructor
  · intro hc hi
    simp [createAccessTokenOp, hc, hi]
  · intro hc hi
    simp [createAccessTokenOp, hc, hi]

/-- Witness for C10: both failure scenarios at concrete parameters. -/
theorem C10_createAccessToken_code_ipfsCid_validation_witness :
    createAccessTokenOp (α := Nat) .custom_auth none none true "0xabc"
        [ResourceType.pkp_signing] true (Except.ok 0) none 3 stateConnected =
      (stateConnected, Except.error "Either code or ipfsCid must be provided") ∧
    createAccessTokenOp (α := Nat) .custom_auth (some "c") (some "QmX") true "0xabc"
        [ResourceType.pkp_signing] true (Except.ok 0) none 3 stateConnected =
      (stateConnected, Except.error "Only one of code or ipfsCid should be provided, not both") := by
  have h1 := C10_createAccessToken_code_ipfsCid_validation (α := Nat) none none true
    "0xabc" [ResourceType.pkp_signing] true (Except.ok 0) none 3 stateConnected
  have h2 := C10_createAccessToken_code_ipfsCid_validation (α := Nat) (some "c")
    (some "QmX") true "0xabc" [ResourceType.pkp_signing] true (Except.ok 0) none 3
    stateConnected
  exact ⟨h1.1 rfl rfl, h2.2 rfl rfl⟩

set_option maxRecDepth 10000 in
/-- C6 counterexample: the written file does not *consist of* the header
comment, `export const code = ` and the JSON encoding alone — the template
literal at src/esbuild.config.ts line 86 appends `;` and a newline after
the JSON string, already visible on the empty bundle text. -/
theorem C6_counterexample_trailing_semicolon_newline :
    wrappedContent "" ≠ claimedFileContent "" := by decide

set_option maxRecDepth 10000 in
/-- C6 (amended): the file written for a bundle text `t` is the fixed
header comment, then `export const code = `, then the JSON string encoding
of `t` transformed by (in order) deleting every occurrence of
`var import_ethers = __require("ethers");`, deleting every occurrence of
`import_ethers.`, deleting every match of `var\s+\w+=\w+\("ethers"\);`, and
replacing every match of a letter followed by `.ethers` with `ethers` —
followed by `;` and a newline.  The concrete conjuncts exercise both the
unminified and the minified transformation paths. -/
theorem C6_amended_wrapped_file_shape :
    (∀ t, wrappedContent t = claimedFileContent t ++ ";\n") ∧
    (∀ t, postprocess t =
      replaceLetterEthersS
        (deleteVarEthersS
          (deleteAllLitS "import_ethers."
            (deleteAllLitS "var import_ethers = __require(\"ethers\");" t)))) ∧
    postprocess "var import_ethers = __require(\"ethers\");import_ethers.utils" = "utils" ∧
    postprocess "var t=o(\"ethers\");const a=t.ethers.utils;" = "const a=ethers.utils;" ∧
    wrappedContent "" = headerComment ++ "export const code = " ++ "\"\"" ++ ";\n" := by
  refine ⟨fun t => rfl, fun t => rfl, by decide, by decide, by decide⟩

/-- C7 counterexample: `getPkps` over two tokens has both `getPubkey`
promises in flight at once (`Promise.all` at src/bulkie.ts lines 111-126),
so the claim that no two vendor-SDK calls are ever concurrently in flight
fails. -/
theorem C7_counterexample_getPkps_concurrent_calls :
    maxInFlight (getPkpsProg ["t1", "t2"]) = 2 ∧
    ¬ maxInFlight (getPkpsProg ["t1", "t2"]) ≤ 1 := by
  constructor
  · rfl
  · decide

/-- C7 (amended): every operation except `getPkps` awaits its vendor-SDK
calls strictly sequentially — at most one call in flight at any moment —
while `getPkps` issues one `getPubkey` per returned token concurrently, so
with `n` tokens it has `max 1 n` calls in flight. -/
theorem C7_amended_operations_sequential_except_getPkps :
    maxInFlight connectToLitNodeClientProg ≤ 1 ∧
    (∀ signer : Bool, maxInFlight (connectToLitContractsProg signer) ≤ 1) ∧
    (∀ selfFund : Bool, maxInFlight (mintPKPProg selfFund) ≤ 1) ∧
    maxInFlight mintCreditsNFTProg ≤ 1 ∧
    maxInFlight createCreditsDelegationTokenProg ≤ 1 ∧
    maxInFlight createAccessTokenProg ≤ 1 ∧
    maxInFlight grantAuthMethodToUsePKPProg ≤ 1 ∧
    maxInFlight grantIPFSCIDtoUsePKPProg ≤ 1 ∧
    (∀ tokens : List String, maxInFlight (getPkpsProg tokens) = max 1 tokens.length) := by
  have hpar : ∀ n : Nat,
      maxInFlight (parAll (List.replicate n (AsyncProg.call "getPubkey"))) = n := by
    intro n
    induction n with
    | zero => rfl
    | succ k ih =>
      rw [List.replicate_succ]
      show maxInFlight (AsyncProg.par (AsyncProg.call "getPubkey")
        (parAll (List.replicate k (AsyncProg.call "getPubkey")))) = k + 1
      simp only [maxInFlight]
      rw [ih]
      omega
  refine ⟨by decide, by decide, by decide, by decide, by decide, by decide, by decide,
    by decide, ?_⟩
  intro tokens
  simp only [getPkpsProg, maxInFlight, List.map_const']
  rw [hpar tokens.length]
  omega
